import Mathlib

/-!
Verification of the Valentine profile intake form
(`src/app/page.tsx` of Deodat-Lawson/valentinesFormGood).

The page is a single React component: a record of eight form fields with
declarative validation rules (react-hook-form), a submit handler that
forwards a validated record to a supabase `insert` call, and three pieces
of UI state (`submitted`, `isLoading`, `error`).  We embed the record, the
per-field rule sets, and the submission flow as an event-step function,
and prove the specified properties about them.
-/

namespace Valentine

/-- The `FormData` record of `page.tsx` (lines 13-22).  The age field is
bound with `valueAsNumber: true` to a numeric input, so its value is a
JavaScript number; we model a present numeric value as `some (q : ℚ)` and
an empty input as `none`.  `idealDate` and `dealBreakers` are optional in
the TS type but always initialised to `""` by `defaultValues`, so they are
plain strings here. -/
structure FormData where
  name : String
  age : Option ℚ
  gender : String
  email : String
  interests : String
  lookingFor : String
  idealDate : String
  dealBreakers : String
deriving Repr, DecidableEq

/-- The eight field names, in the order the form renders them. -/
inductive Field
  | name | age | gender | email | interests | lookingFor | idealDate | dealBreakers
deriving Repr, DecidableEq

/-- `defaultValues` passed to `useForm` (page.tsx lines 88-97): every text
field starts empty and `age` starts at the number `0`. -/
def defaultValues : FormData :=
  { name := "", age := some 0, gender := "", email := "", interests := "",
    lookingFor := "", idealDate := "", dealBreakers := "" }

/-- The `required` rule on the name field (line 158): empty fails with the
configured message. -/
def validateName (s : String) : Option String :=
  if s = "" then some "Name is required" else none

/-- The age rule set (lines 168-173): `required`, `min: 18`, `max: 120`,
with the configured messages.  `required` fires on an empty input; below
the minimum and above the maximum the range messages fire; otherwise the
value passes. -/
def validateAge (a : Option ℚ) : Option String :=
  match a with
  | none => some "Age is required"
  | some v =>
    if v < 18 then some "Minimum age is 18"
    else if 120 < v then some "Maximum age is 120"
    else none

/-- The `required` rule on the gender select (line 189). -/
def validateGender (s : String) : Option String :=
  if s = "" then some "Gender is required" else none

/-- The option list of the gender select (lines 182-188), as
(value, label) pairs.  The select widget only ever holds one of these
values. -/
def genderOptions : List (String × String) :=
  [("", "Select gender"), ("male", "Male"), ("female", "Female"),
   ("non-binary", "Non-binary"), ("other", "Other")]

/-- The regex `/^\S+@\S+$/i` of the email pattern rule (line 201): the
whole string splits at some position `i` as a nonempty run of
non-whitespace characters, the character `@`, and another nonempty run of
non-whitespace characters.  (The `i` flag is inert: the pattern contains
no cased characters.) -/
def matchesEmailPattern (s : String) : Bool :=
  (List.range s.data.length).any fun i =>
    s.data.getD i ' ' == '@'
    && decide (0 < i)
    && (s.data.take i).all (fun c => !c.isWhitespace)
    && decide (i + 1 < s.data.length)
    && (s.data.drop (i + 1)).all (fun c => !c.isWhitespace)

/-- The `pattern` rule of the email field alone (lines 201): a string not
matching the regex fails with the configured message. -/
def emailPatternCheck (s : String) : Option String :=
  if matchesEmailPattern s then none else some "Invalid email address"

/-- The email rule set (lines 199-202): `required` first, then the
pattern rule. -/
def validateEmail (s : String) : Option String :=
  if s = "" then some "Email is required"
  else emailPatternCheck s

/-- The `required` rule shared by the interests and lookingFor textareas
(lines 211 and 220). -/
def validateFreeText (s : String) : Option String :=
  if s = "" then some "This field is required" else none

/-- The rule set configured for one field (the `rules` props of the eight
`FormField` elements; `idealDate` and `dealBreakers` have no rules). -/
def fieldRuleError (d : FormData) : Field → Option String
  | .name => validateName d.name
  | .age => validateAge d.age
  | .gender => validateGender d.gender
  | .email => validateEmail d.email
  | .interests => validateFreeText d.interests
  | .lookingFor => validateFreeText d.lookingFor
  | .idealDate => none
  | .dealBreakers => none

/-- All eight fields, in render order. -/
def allFields : List Field :=
  [.name, .age, .gender, .email, .interests, .lookingFor, .idealDate, .dealBreakers]

/-- The validation pass that `handleSubmit` runs over the whole form: the
list of (field, message) pairs for every field whose rule set fails. -/
def formErrors (d : FormData) : List (Field × String) :=
  allFields.filterMap fun f => (fieldRuleError d f).map fun m => (f, m)

/-- The component state of `ValentineForm` (page.tsx lines 83-98): the
three `useState` hooks, the current field values held by `useForm`, and
the per-field error messages that `useController` exposes after a failed
`handleSubmit` pass. -/
structure ComponentState where
  submitted : Bool
  isLoading : Bool
  error : Option String
  fields : FormData
  fieldErrors : List (Field × String)
deriving Repr, DecidableEq

/-- The initial component state at mount: `submitted = false`,
`isLoading = false`, `error = null`, fields at `defaultValues`, no field
errors shown. -/
def initialState : ComponentState :=
  { submitted := false, isLoading := false, error := none,
    fields := defaultValues, fieldErrors := [] }

/-- The error banner text set in the `catch` branch of `onSubmit`
(line 114). -/
def failMessage : String := "Failed to submit form. Please try again."

/-- The externally visible events of the component: the user pressing the
submit control, a field edit, and the awaited supabase insert resolving
(successfully or not). -/
inductive Event
  | submitPress
  | edit (f : FormData)
  | insertResolved (ok : Bool)

/-- One step of the component, returning the next state together with the
list of insert-call payloads issued during the step.

`submitPress`: when `submitted` the confirmation view is rendered and the
form (line 151) does not exist; when `isLoading` the submit button is
disabled (`disabled={isLoading}`, line 241) so the press has no effect.
Otherwise `handleSubmit(onSubmit)` validates every field: with no errors
it invokes `onSubmit`, which sets `isLoading`, clears the banner and
issues one insert whose payload is the current field record
(`insert([data])`, lines 106-108); with errors it records them per field
and invokes nothing.

`edit`: typing updates the field values (only meaningful on the form
view).

`insertResolved ok`: the awaited insert returns; on success `onSubmit`
sets `submitted` (line 112), on failure it sets the generic banner
(line 114); `finally` clears `isLoading` (line 117). -/
def step (s : ComponentState) : Event → ComponentState × List FormData
  | .submitPress =>
    if s.submitted then (s, [])
    else if s.isLoading then (s, [])
    else
      match formErrors s.fields with
      | [] => ({ s with isLoading := true, error := none, fieldErrors := [] }, [s.fields])
      | es => ({ s with fieldErrors := es }, [])
  | .edit f =>
    if s.submitted then (s, []) else ({ s with fields := f }, [])
  | .insertResolved ok =>
    if s.isLoading then
      if ok then ({ s with submitted := true, isLoading := false }, [])
      else ({ s with error := some failMessage, isLoading := false }, [])
    else (s, [])

/-- Run a list of events from a state, accumulating every insert-call
payload issued along the way. -/
def run (s : ComponentState) : List Event → ComponentState × List FormData
  | [] => (s, [])
  | e :: es =>
    let p := step s e
    let q := run p.1 es
    (q.1, p.2 ++ q.2)

/-- The supabase client record produced by `createClient` (page.tsx
line 11).

Modelled from the spec: the constructor itself lives in the third-party
package `@supabase/supabase-js`, not in this repository; spec §6 says
absence of the configuration "degrades to an unusable (but non-crashing)
client", so the constructor is a total function that records its two
arguments. -/
structure SupabaseClient where
  url : String
  key : String
deriving Repr, DecidableEq

/-- Modelled from the spec: the third-party client constructor, total
(never crashing) in its two string arguments. -/
def createClient (url key : String) : SupabaseClient := ⟨url, key⟩

/-- A client is configured when both the endpoint URL and the access key
are nonempty. -/
def clientConfigured (c : SupabaseClient) : Bool :=
  (c.url != "") && (c.key != "")

/-- Modelled from the spec: the insert call succeeds only on a configured
client, and then with whatever outcome the external service returns; on an
unconfigured ("unusable") client it always fails. -/
def clientInsert (c : SupabaseClient) (serviceOk : Bool) : Bool :=
  clientConfigured c && serviceOk

/-- Module initialisation (page.tsx lines 9-11): each environment
variable falls back to `""` when absent (`|| ""`), and the client is
constructed from the two resulting strings. -/
def initSupabase (env : String → Option String) : SupabaseClient :=
  createClient ((env "NEXT_PUBLIC_SUPABASE_URL").getD "")
    ((env "NEXT_PUBLIC_SUPABASE_ANON_KEY").getD "")

/-- A concrete fully valid field record, used to instantiate the
universally quantified theorems below. -/
def sampleData : FormData :=
  { name := "Ada", age := some 30, gender := "female", email := "ada@example.com",
    interests := "math", lookingFor := "kindness", idealDate := "museum visit",
    dealBreakers := "" }

/-- A concrete state with an insert call in flight over `sampleData`. -/
def loadingState : ComponentState :=
  { submitted := false, isLoading := true, error := none, fields := sampleData,
    fieldErrors := [] }

/-- Every insert-call payload a step can issue is exactly the current
field record: `onSubmit` passes `data` itself to `insert([data])`
(line 108), and no other branch issues a call. -/
theorem payload_eq_fields (s : ComponentState) (e : Event) (p : FormData)
    (hp : p ∈ (step s e).2) : p = s.fields := by
  cases e with
  | submitPress =>
    by_cases h1 : s.submitted
    · simp [step, h1] at hp
    · by_cases h2 : s.isLoading
      · simp [step, h1, h2] at hp
      · cases hf : formErrors s.fields with
        | nil => simp [step, h1, h2, hf] at hp; exact hp
        | cons a as => simp [step, h1, h2, hf] at hp
  | edit f =>
    by_cases h1 : s.submitted <;> simp [step, h1] at hp
  | insertResolved ok =>
    by_cases h1 : s.isLoading <;> cases ok <;> simp [step, h1] at hp

/-- Claim C1: an insert call is issued only when every configured field
rule passes; whenever some field has a validation error, pressing submit
issues no call and records exactly the computed errors for display. -/
theorem errors_block_insert (s : ComponentState) :
    (∀ e, (step s e).2 ≠ [] → formErrors s.fields = []) ∧
    (s.submitted = false → s.isLoading = false → formErrors s.fields ≠ [] →
      (step s Event.submitPress).2 = [] ∧
      (step s Event.submitPress).1.fieldErrors = formErrors s.fields) := by
  constructor
  · intro e he
    cases e with
    | submitPress =>
      by_cases h1 : s.submitted
      · simp [step, h1] at he
      · by_cases h2 : s.isLoading
        · simp [step, h1, h2] at he
        · cases hf : formErrors s.fields with
          | nil => rfl
          | cons a as => simp [step, h1, h2, hf] at he
    | edit f => by_cases h1 : s.submitted <;> simp [step, h1] at he
    | insertResolved ok => by_cases h1 : s.isLoading <;> cases ok <;> simp [step, h1] at he
  · intro h1 h2 h3
    cases hf : formErrors s.fields with
    | nil => exact absurd hf h3
    | cons a as => simp [step, h1, h2, hf]

/-- Witness for C1: at the freshly mounted state (all required fields
empty) submitting makes no call and displays the validation errors. -/
theorem errors_block_insert_check :
    (step initialState Event.submitPress).2 = [] ∧
    (step initialState Event.submitPress).1.fieldErrors = formErrors initialState.fields :=
  (errors_block_insert initialState).2 rfl rfl (by decide)

/-- Claim C2: from a form-view state in which all field rules pass,
pressing submit issues exactly one insert call whose row is exactly the
eight current field values, and a successful resolution transitions the
view to the confirmation (thank-you) state. -/
theorem valid_submit_one_insert (s : ComponentState)
    (hsub : s.submitted = false) (hload : s.isLoading = false)
    (hval : formErrors s.fields = []) :
    (step s Event.submitPress).2 =
      [{ name := s.fields.name, age := s.fields.age, gender := s.fields.gender,
         email := s.fields.email, interests := s.fields.interests,
         lookingFor := s.fields.lookingFor, idealDate := s.fields.idealDate,
         dealBreakers := s.fields.dealBreakers }] ∧
    (step (step s Event.submitPress).1 (Event.insertResolved true)).1.submitted = true := by
  constructor
  · simp [step, hsub, hload, hval]
  · simp [step, hsub, hload, hval]

/-- Witness for C2 at a concrete valid record. -/
theorem valid_submit_one_insert_check :
    (step { initialState with fields := sampleData } Event.submitPress).2 = [sampleData] ∧
    (step (step { initialState with fields := sampleData } Event.submitPress).1
      (Event.insertResolved true)).1.submitted = true :=
  valid_submit_one_insert { initialState with fields := sampleData } rfl rfl (by decide)

/-- Claim C3: ages below 18 fail with the minimum message, ages above 120
fail with the maximum message, and the boundary values 18 and 120 both
pass the rule set. -/
theorem age_range_rule (a : ℚ) :
    (a < 18 → validateAge (some a) = some "Minimum age is 18") ∧
    (120 < a → validateAge (some a) = some "Maximum age is 120") ∧
    validateAge (some 18) = none ∧ validateAge (some 120) = none := by
  refine ⟨fun h => ?_, fun h => ?_, by decide, by decide⟩
  · simp [validateAge, h]
  · have h1 : ¬ a < 18 := by linarith
    simp [validateAge, h1, h]

/-- Witness for C3 at the concrete out-of-range ages 10 and 130. -/
theorem age_range_rule_check :
    validateAge (some 10) = some "Minimum age is 18" ∧
    validateAge (some 130) = some "Maximum age is 120" :=
  ⟨(age_range_rule 10).1 (by norm_num), (age_range_rule 130).2.1 (by norm_num)⟩

/-- Claim C4: when the in-flight insert fails, the view stays on the form
(not the confirmation view), the generic banner message is set, the field
values are untouched, no call is issued by the failure itself (no
automatic retry), and a manual resubmission of the still-valid record
issues a fresh call. -/
theorem insert_failure_keeps_form (s : ComponentState)
    (hload : s.isLoading = true) (hsub : s.submitted = false) :
    (step s (Event.insertResolved false)).1.submitted = false ∧
    (step s (Event.insertResolved false)).1.error = some failMessage ∧
    (step s (Event.insertResolved false)).1.fields = s.fields ∧
    (step s (Event.insertResolved false)).2 = [] ∧
    (formErrors s.fields = [] →
      (step (step s (Event.insertResolved false)).1 Event.submitPress).2 = [s.fields]) := by
  refine ⟨?_, ?_, ?_, ?_, fun hval => ?_⟩ <;> simp [step, hload, hsub, *]

/-- Witness for C4 at a concrete in-flight state. -/
theorem insert_failure_keeps_form_check :
    (step loadingState (Event.insertResolved false)).1.submitted = false ∧
    (step loadingState (Event.insertResolved false)).1.error = some failMessage ∧
    (step loadingState (Event.insertResolved false)).1.fields = loadingState.fields ∧
    (step loadingState (Event.insertResolved false)).2 = [] ∧
    (step (step loadingState (Event.insertResolved false)).1 Event.submitPress).2 =
      [loadingState.fields] := by
  have h := insert_failure_keeps_form loadingState rfl rfl
  exact ⟨h.1, h.2.1, h.2.2.1, h.2.2.2.1, h.2.2.2.2 (by decide)⟩

/-- Claim C5: while an insert is in flight the disabled submit control
makes a press a no-op, so two presses in rapid succession from a valid
form-view state issue exactly one insert call. -/
theorem inflight_blocks_second_submit (s : ComponentState) :
    (s.isLoading = true → step s Event.submitPress = (s, [])) ∧
    (s.submitted = false → s.isLoading = false → formErrors s.fields = [] →
      (run s [Event.submitPress, Event.submitPress]).2 = [s.fields]) := by
  constructor
  · intro hl
    by_cases hs : s.submitted <;> simp [step, hs, hl]
  · intro hs hl hval
    simp [run, step, hs, hl, hval]

/-- Witness for C5: a press is a no-op on a concrete in-flight state, and
a concrete valid state pressed twice yields one call. -/
theorem inflight_blocks_second_submit_check :
    step loadingState Event.submitPress = (loadingState, []) ∧
    (run { initialState with fields := sampleData }
      [Event.submitPress, Event.submitPress]).2 = [sampleData] :=
  ⟨(inflight_blocks_second_submit loadingState).1 rfl,
   (inflight_blocks_second_submit { initialState with fields := sampleData }).2 rfl rfl
     (by decide)⟩

/-- Claim C6: any email string containing no `@` character fails the
pattern rule with the configured message. -/
theorem email_without_at_rejected (s : String) (h : ∀ c ∈ s.data, c ≠ '@') :
    emailPatternCheck s = some "Invalid email address" := by
  have hm : matchesEmailPattern s = false := by
    unfold matchesEmailPattern
    rw [List.any_eq_false]
    intro i hi
    rw [List.mem_range] at hi
    have hne : s.data[i] ≠ '@' := h _ (List.getElem_mem hi)
    simp [List.getElem?_eq_getElem hi, hne]
  simp [emailPatternCheck, hm]

/-- Witness for C6 at the concrete string "abc". -/
theorem email_without_at_rejected_check :
    emailPatternCheck "abc" = some "Invalid email address" :=
  email_without_at_rejected "abc" (by decide)

/-- Counterexample to claim C7 as stated: the value 37/2 = 18.5 is not an
integer (its reduced denominator is 2, not 1), yet the configured age
rules accept it, since they check only required/min/max and
`valueAsNumber` permits any numeric value. -/
theorem age_rules_allow_noninteger :
    validateAge (some ((37 : ℚ)/2)) = none ∧ ((37 : ℚ)/2).den ≠ 1 := by
  constructor
  · norm_num [validateAge]
  · norm_num [Rat.den]

/-- Claim C7 amended: the age rule set accepts a present numeric value
exactly when it lies in [18, 120]; integrality is not enforced. -/
theorem age_rules_accept_iff (a : ℚ) :
    validateAge (some a) = none ↔ 18 ≤ a ∧ a ≤ 120 := by
  by_cases h1 : a < 18
  · simp [validateAge, h1]
  · by_cases h2 : 120 < a
    · simp [validateAge, h1, h2]
    · simp [validateAge, h1, h2]
      constructor <;> linarith

/-- Witness for the amended C7 at the concrete age 50. -/
theorem age_rules_accept_iff_check : validateAge (some 50) = none :=
  (age_rules_accept_iff 50).mpr (by norm_num)

/-- Claim C8: the gender select offers exactly the values of the
enumerated set {male, female, non-binary, other} together with the empty
(unselected) value, so empty is a permitted value of the data model; the
required rule rejects the empty value at submission. -/
theorem gender_value_domain :
    genderOptions.map Prod.fst = ["", "male", "female", "non-binary", "other"] ∧
    "" ∈ genderOptions.map Prod.fst ∧
    validateGender "" = some "Gender is required" := by decide

/-- Claim C9: with either environment variable absent, the client is
still constructed (from the `|| ""` fallbacks), every insert on it fails,
and an in-flight submission then ends on the form view with the generic
banner message rather than aborting. -/
theorem missing_env_client_nonfatal (env : String → Option String)
    (h : env "NEXT_PUBLIC_SUPABASE_URL" = none ∨ env "NEXT_PUBLIC_SUPABASE_ANON_KEY" = none) :
    initSupabase env =
      createClient ((env "NEXT_PUBLIC_SUPABASE_URL").getD "")
        ((env "NEXT_PUBLIC_SUPABASE_ANON_KEY").getD "") ∧
    (∀ serviceOk, clientInsert (initSupabase env) serviceOk = false) ∧
    (∀ s : ComponentState, s.isLoading = true → s.submitted = false →
      (step s (Event.insertResolved (clientInsert (initSupabase env) true))).1.submitted = false ∧
      (step s (Event.insertResolved (clientInsert (initSupabase env) true))).1.error =
        some failMessage) := by
  have hins : ∀ serviceOk, clientInsert (initSupabase env) serviceOk = false := by
    intro serviceOk
    rcases h with h | h <;>
      simp [clientInsert, clientConfigured, initSupabase, createClient, h]
  refine ⟨rfl, hins, fun s hl hs => ?_⟩
  rw [hins]
  constructor <;> simp [step, hl, hs]

/-- Witness for C9 at the empty environment. -/
theorem missing_env_client_nonfatal_check :
    clientInsert (initSupabase fun _ => none) true = false :=
  ((missing_env_client_nonfatal (fun _ => none) (Or.inl rfl)).2.1) true

/-- Claim C10: the default age is the number 0, which the age rules
reject with the minimum message, so any field record whose age is still
the default fails validation; the optional fields default to `""` and any
issued insert payload carries `idealDate` and `dealBreakers` exactly as
held in the form, never omitted. -/
theorem default_age_blocks_validation :
    defaultValues.age = some 0 ∧
    validateAge defaultValues.age = some "Minimum age is 18" ∧
    (∀ d : FormData, d.age = some 0 → formErrors d ≠ []) ∧
    defaultValues.idealDate = "" ∧ defaultValues.dealBreakers = "" ∧
    (∀ (s : ComponentState) (e : Event) (p : FormData), p ∈ (step s e).2 →
      p.idealDate = s.fields.idealDate ∧ p.dealBreakers = s.fields.dealBreakers) := by
  refine ⟨rfl, by decide, ?_, rfl, rfl, fun s e p hp => ?_⟩
  · intro d hd
    have hmem : (Field.age, "Minimum age is 18") ∈ formErrors d := by
      unfold formErrors allFields
      refine List.mem_filterMap.mpr ⟨Field.age, by simp, ?_⟩
      simp [fieldRuleError, hd, validateAge]
    exact List.ne_nil_of_mem hmem
  · rw [payload_eq_fields s e p hp]
    exact ⟨rfl, rfl⟩

/-- Witness for C10: the freshly mounted default record fails
validation. -/
theorem default_age_blocks_validation_check : formErrors defaultValues ≠ [] :=
  default_age_blocks_validation.2.2.1 defaultValues rfl

end Valentine
